import Mathlib

/-!
Shallow embedding of the playback-synchronization core of `src/App.tsx`
(p2pplayer): the sync-command handler, the send path with its loop guard,
the heartbeat scheduler, the connection handlers and the role-selection UI
state. Media positions and wire timestamps are exact rationals; the JS
`NaN` produced by coercing a malformed payload is modelled explicitly as
an absent number (every `NaN` comparison is false). Interval-timer handles
are natural numbers and the list of not-yet-cleared interval timers is
tracked, so at-most-one-timer claims are meaningful.
-/

namespace P2P

/-- Parameter type of `sendCommand` in the source: `'PLAY' | 'PAUSE' | 'SEEK'`. -/
inductive UserCmdType where
  | PLAY | PAUSE | SEEK
deriving DecidableEq

/-- Wire command types: `'PLAY' | 'PAUSE' | 'SEEK' | 'HEARTBEAT'`. -/
inductive CmdType where
  | PLAY | PAUSE | SEEK | HEARTBEAT
deriving DecidableEq

def UserCmdType.toCmdType : UserCmdType → CmdType
  | .PLAY => .PLAY
  | .PAUSE => .PAUSE
  | .SEEK => .SEEK

/-- The wire entity `SyncCommand`: `{ type, timestamp }` with a well-typed payload. -/
structure SyncCommand where
  type : CmdType
  timestamp : ℚ
deriving DecidableEq

/-- A JS value as it can appear in the `timestamp` field of an inbound, possibly
malformed, message. `strNonNumeric` is a string that does not parse as a number
(e.g. "abc"); arithmetic coerces it to `NaN`, modelled by `jsToNumber = none`. -/
inductive JVal where
  | num (q : ℚ)
  | nan
  | strNonNumeric (s : String)
  | undef
deriving DecidableEq

/-- JS numeric coercion used in `v.currentTime - cmd.timestamp`: `none` is `NaN`. -/
def jsToNumber : JVal → Option ℚ
  | .num q => some q
  | .nan => none
  | .strNonNumeric _ => none
  | .undef => none

/-- An inbound raw message before any validation: the source casts it directly
(`data as SyncCommand`). `type = none` models a missing `type` field. -/
structure RawMsg where
  type : Option String
  timestamp : JVal
deriving DecidableEq

/-- A PeerJS `DataConnection` as the core observes it: remote peer id and the
library-maintained `open` flag. -/
structure DataConn where
  peer : String
  opn : Bool
deriving DecidableEq

/-- The three views of the component (`'LANDING' | 'HOST' | 'CLIENT'`). -/
inductive View where
  | LANDING | HOST | CLIENT
deriving DecidableEq

/-- One `addLog` entry, tagged so each diagnostic reason is distinguishable. -/
inductive LogEntry where
  | ready
  | dataConnOpen
  | received (t : CmdType)
  | receivedRaw (t : Option String)
  | exec (t : CmdType)
  | execRaw (t : Option String)
  | driftDiag (d : ℚ)
  | syncing (d : ℚ)
  | sending (t : UserCmdType)
  | sendFailNoConn
  | sendFailConnClosed
  | sendSkipRemoteOp
  | heartbeatStarted
  | heartbeatStopped
  | connectionClosed
  | dataConnError
  | restarting
  | decodeError
deriving DecidableEq

/-- The mutable refs and rendered-element state of the `App` component.
`hostPos` is `videoRef.current?.currentTime` (`none` when the host video
element is unmounted), `clientPos` likewise for `remoteVideoRef`.
`guardClearDelay` is the delay in ms of the pending `setTimeout` that will
clear `isRemoteOp`. `liveTimers` are the interval-timer ids created by
`window.setInterval` and not yet passed to `clearInterval`. -/
structure AppState where
  view : View
  isHostRef : Bool
  hostPos : Option ℚ
  hostPaused : Bool
  clientPos : Option ℚ
  peerReady : Bool
  dataConn : Option DataConn
  isRemoteOp : Bool
  guardClearDelay : Option ℕ
  heartbeatInterval : Option ℕ
  liveTimers : List ℕ
  nextTimerId : ℕ
  heartbeatPeriodMs : Option ℕ
  sent : List SyncCommand
  mediaCalls : ℕ
  log : List LogEntry
deriving DecidableEq

/-- The fixed loop-guard window: `setTimeout(..., 300)` in `handleSyncCommand`. -/
def remoteOpWindowMs : ℕ := 300

/-- The fixed heartbeat period: `window.setInterval(..., 1000)` in `startHeartbeat`. -/
def heartbeatTickMs : ℕ := 1000

/-- `clearInterval(id)`: the timer with this id stops firing. -/
def clearIntervalTimer (s : AppState) (id : ℕ) : AppState :=
  { s with liveTimers := s.liveTimers.erase id }

/-- `startHeartbeat` (App.tsx 138-149): clear any existing interval, then create
a fresh 1000 ms interval and log `Heartbeat started`. -/
def startHeartbeat (s : AppState) : AppState :=
  let s1 := match s.heartbeatInterval with
    | some id => clearIntervalTimer s id
    | none => s
  { s1 with
    heartbeatInterval := some s1.nextTimerId
    liveTimers := s1.liveTimers ++ [s1.nextTimerId]
    nextTimerId := s1.nextTimerId + 1
    heartbeatPeriodMs := some heartbeatTickMs
    log := s1.log ++ [.heartbeatStarted] }

/-- `stopHeartbeat` (App.tsx 151-157): if an interval is stored, clear it, null
the ref and log `Heartbeat stopped`; otherwise do nothing. -/
def stopHeartbeat (s : AppState) : AppState :=
  match s.heartbeatInterval with
  | some id =>
      { clearIntervalTimer s id with
        heartbeatInterval := none
        heartbeatPeriodMs := none
        log := s.log ++ [.heartbeatStopped] }
  | none => s

/-- The interval callback of `startHeartbeat` (App.tsx 140-147): if the host
video element exists and the data connection is open, send a `HEARTBEAT`
carrying the current local position; otherwise do nothing (no queueing). -/
def heartbeatTick (s : AppState) : AppState :=
  match s.hostPos, s.dataConn with
  | some t, some c =>
      if c.opn then { s with sent := s.sent ++ [⟨.HEARTBEAT, t⟩] } else s
  | _, _ => s

/-- `handleSyncCommand` (App.tsx 159-202) on a well-typed `SyncCommand`. -/
def handleSyncCommand (s : AppState) (cmd : SyncCommand) : AppState :=
  if s.isHostRef then
    match s.hostPos with
    | none => s
    | some cur =>
        if cmd.type = .HEARTBEAT then s
        else
          let s1 := { s with isRemoteOp := true, log := s.log ++ [LogEntry.exec cmd.type] }
          let s2 := match cmd.type with
            | .PLAY => { s1 with hostPaused := false }
            | .PAUSE => { s1 with hostPaused := true }
            | .SEEK =>
                if |cur - cmd.timestamp| > 1/2 then { s1 with hostPos := some cmd.timestamp }
                else s1
            | .HEARTBEAT => s1
          { s2 with guardClearDelay := some remoteOpWindowMs }
  else
    match s.clientPos with
    | none => s
    | some cur =>
        if cmd.type = .HEARTBEAT then
          let drift := |cur - cmd.timestamp|
          let s1 := if drift > 1/2 then { s with log := s.log ++ [LogEntry.driftDiag drift] } else s
          if drift > 1 then
            { s1 with log := s1.log ++ [LogEntry.syncing drift], clientPos := some cmd.timestamp }
          else s1
        else s

/-- The `conn.on('data', ...)` handler (App.tsx 115-121) on a well-typed
message: log `Received` unless it is a heartbeat, then handle it. -/
def onData (s : AppState) (cmd : SyncCommand) : AppState :=
  let s1 := if cmd.type ≠ .HEARTBEAT then { s with log := s.log ++ [LogEntry.received cmd.type] } else s
  handleSyncCommand s1 cmd

/-- `sendCommand` (App.tsx 204-214): send only when a connection exists, is open
and the loop-guard flag is clear; otherwise log exactly one failure reason. -/
def sendCommand (s : AppState) (ty : UserCmdType) (ts : ℚ) : AppState :=
  match s.dataConn with
  | some c =>
      if c.opn && !s.isRemoteOp then
        { s with log := s.log ++ [LogEntry.sending ty], sent := s.sent ++ [⟨ty.toCmdType, ts⟩] }
      else if !c.opn then { s with log := s.log ++ [.sendFailConnClosed] }
      else { s with log := s.log ++ [.sendSkipRemoteOp] }
  | none => { s with log := s.log ++ [.sendFailNoConn] }

/-- `restartStream` (App.tsx 319-338): Host-only explicit media re-offer; when
the guard condition holds it logs and places one more outbound media call,
touching nothing else; otherwise it does nothing. -/
def restartStream (s : AppState) : AppState :=
  if s.isHostRef && s.peerReady && s.dataConn.isSome && s.hostPos.isSome then
    { s with log := s.log ++ [.restarting], mediaCalls := s.mediaCalls + 1 }
  else s

/-- `handleSyncCommand` as the source actually executes it on a raw, unvalidated
payload (`const command = data as SyncCommand`, App.tsx 116): string comparison
on a possibly missing `type`, JS numeric coercion on `timestamp`, every
comparison against `NaN` false. -/
def handleSyncCommandRaw (s : AppState) (m : RawMsg) : AppState :=
  if s.isHostRef then
    match s.hostPos with
    | none => s
    | some cur =>
        if m.type = some "HEARTBEAT" then s
        else
          let s1 := { s with isRemoteOp := true, log := s.log ++ [LogEntry.execRaw m.type] }
          let s2 : AppState :=
            if m.type = some "PLAY" then { s1 with hostPaused := false }
            else if m.type = some "PAUSE" then { s1 with hostPaused := true }
            else if m.type = some "SEEK" then
              match jsToNumber m.timestamp with
              | some ts => if |cur - ts| > 1/2 then { s1 with hostPos := some ts } else s1
              | none => s1
            else s1
          { s2 with guardClearDelay := some remoteOpWindowMs }
  else
    match s.clientPos with
    | none => s
    | some cur =>
        if m.type = some "HEARTBEAT" then
          match jsToNumber m.timestamp with
          | some ts =>
              let drift := |cur - ts|
              let s1 :=
                if drift > 1/2 then { s with log := s.log ++ [LogEntry.driftDiag drift] } else s
              if drift > 1 then
                { s1 with log := s1.log ++ [LogEntry.syncing drift], clientPos := some ts }
              else s1
          | none => s
        else s

/-- The `conn.on('data', ...)` handler on a raw payload: the source performs no
validation at all — it logs `Received` (unless the type field is the string
HEARTBEAT) and forwards the cast payload straight to the handler. -/
def onDataRaw (s : AppState) (m : RawMsg) : AppState :=
  let s1 :=
    if m.type ≠ some "HEARTBEAT" then { s with log := s.log ++ [LogEntry.receivedRaw m.type] } else s
  handleSyncCommandRaw s1 m

/-- Externally triggered events of the component: UI clicks, PeerJS callbacks,
timer firings. `tick id` is the interval callback of the timer with handle
`id` (it only does anything if that timer has not been cleared);
`guardTimeout` is the pending `setTimeout` clearing `isRemoteOp`. -/
inductive Event where
  | clickHostCard
  | clickClientCard
  | exitToLanding
  | peerOpen
  | inboundConnection (c : DataConn)
  | connOpen
  | connClose
  | connError
  | dataMsg (cmd : SyncCommand)
  | rawMsg (m : RawMsg)
  | tick (id : ℕ)
  | guardTimeout
  | fileLoad
  | userPlay (t : ℚ)
  | userPause (t : ℚ)
  | userSeek (t : ℚ)
  | clientPlayBtn
  | clientPauseBtn
  | clickRestart
deriving DecidableEq

/-- What runs when the data connection fires `open` (with `dataConnRef`
already updated): the `setupDataConnection` open handler (App.tsx 122-127)
starts the heartbeat if this peer is the Host, and the Host's
`peer.on('connection')` open handler (App.tsx 57-82) places the outbound
media call when the host video element exists. -/
def onConnOpen (s : AppState) : AppState :=
  if s.isHostRef then
    if s.hostPos.isSome then
      { startHeartbeat s with mediaCalls := (startHeartbeat s).mediaCalls + 1 }
    else startHeartbeat s
  else s

/-- The tail of `handleFileChange` (App.tsx 286-298): if a data connection is
already open and the peer exists, call the existing client with the captured
stream and start the heartbeat. -/
def onFileLoaded (s : AppState) : AppState :=
  match s.dataConn with
  | some c =>
      if c.opn && s.peerReady then startHeartbeat { s with mediaCalls := s.mediaCalls + 1 }
      else s
  | none => s

/-- One event-loop turn of the component. UI events mirror the JSX handlers
(App.tsx 345-445): the role cards exist only on the LANDING view and set
`isHostRef` alongside the view; the Exit buttons only change the view back to
LANDING (unmounting the view's video element) and tear nothing else down.
PeerJS events mirror `initPeer`, `setupDataConnection` and `connectToHost`:
an inbound connection unconditionally overwrites `dataConnRef` (App.tsx 54);
`connOpen` marks the connection open, logs, and — Host only — starts the
heartbeat (App.tsx 122-127) and places the media call (App.tsx 60-77);
close/error log and stop the heartbeat (App.tsx 128-135). `fileLoad` is a
successful MP4 selection (App.tsx 272-299). -/
def step (s : AppState) : Event → AppState
  | .clickHostCard =>
      if s.view = .LANDING then
        { s with view := .HOST, isHostRef := true, hostPos := some 0 }
      else s
  | .clickClientCard =>
      if s.view = .LANDING then
        { s with view := .CLIENT, isHostRef := false, clientPos := some 0 }
      else s
  | .exitToLanding =>
      if s.view = .LANDING then s
      else { s with view := .LANDING, hostPos := none, clientPos := none }
  | .peerOpen => { s with peerReady := true, log := s.log ++ [.ready] }
  | .inboundConnection c => { s with dataConn := some c }
  | .connOpen =>
      match s.dataConn with
      | none => s
      | some c =>
          onConnOpen { s with dataConn := some { c with opn := true },
                              log := s.log ++ [.dataConnOpen] }
  | .connClose =>
      match s.dataConn with
      | none => s
      | some c =>
          stopHeartbeat { s with dataConn := some { c with opn := false },
                                 log := s.log ++ [.connectionClosed] }
  | .connError =>
      match s.dataConn with
      | none => s
      | some _ => stopHeartbeat { s with log := s.log ++ [.dataConnError] }
  | .dataMsg cmd => onData s cmd
  | .rawMsg m => onDataRaw s m
  | .tick id => if id ∈ s.liveTimers then heartbeatTick s else s
  | .guardTimeout =>
      match s.guardClearDelay with
      | some _ => { s with isRemoteOp := false, guardClearDelay := none }
      | none => s
  | .fileLoad =>
      if s.view = .HOST then
        onFileLoaded { s with hostPos := some 0, isHostRef := true }
      else s
  | .userPlay t =>
      if s.hostPos.isSome then sendCommand { s with hostPaused := false } .PLAY t else s
  | .userPause t =>
      if s.hostPos.isSome then sendCommand { s with hostPaused := true } .PAUSE t else s
  | .userSeek t =>
      if s.hostPos.isSome then sendCommand { s with hostPos := some t } .SEEK t else s
  | .clientPlayBtn => sendCommand s .PLAY 0
  | .clientPauseBtn => sendCommand s .PAUSE 0
  | .clickRestart => restartStream s

/-- The component's state right after mount: LANDING view, no role chosen, no
connection, no timers, nothing sent. -/
def initState : AppState where
  view := .LANDING
  isHostRef := false
  hostPos := none
  hostPaused := true
  clientPos := none
  peerReady := false
  dataConn := none
  isRemoteOp := false
  guardClearDelay := none
  heartbeatInterval := none
  liveTimers := []
  nextTimerId := 0
  heartbeatPeriodMs := none
  sent := []
  mediaCalls := 0
  log := []

/-- Run a list of events from a state, oldest first. -/
def run (s : AppState) : List Event → AppState
  | [] => s
  | e :: es => run (step s e) es

/-- States the component can actually be in: reachable from `initState`. -/
def Reachable (s : AppState) : Prop :=
  ∃ es : List Event, run initState es = s

/-- Structural invariants of reachable states: the only interval timers ever
created are heartbeat timers and `startHeartbeat` clears the old one first, so
the live timers are exactly the content of the `heartbeatInterval` ref; the
HOST view is only ever entered together with `isHostRef := true`; and the host
video element exists exactly on the HOST view. -/
def Inv (s : AppState) : Prop :=
  s.liveTimers = s.heartbeatInterval.toList
  ∧ (s.view = .HOST → s.isHostRef = true)
  ∧ (s.view ≠ .HOST → s.hostPos = none)

theorem inv_initState : Inv initState := by
  refine ⟨rfl, fun h => ?_, fun _ => rfl⟩
  simp [initState] at h

theorem inv_of_fields (s t : AppState)
    (hV : t.view = s.view) (hR : t.isHostRef = s.isHostRef)
    (hHP : t.hostPos = s.hostPos)
    (hLT : t.liveTimers = s.liveTimers)
    (hHI : t.heartbeatInterval = s.heartbeatInterval)
    (h : Inv s) : Inv t := by
  obtain ⟨h1, h2, h3⟩ := h
  refine ⟨?_, ?_, ?_⟩
  · rw [hLT, hHI]; exact h1
  · intro hv; rw [hR]; exact h2 (hV ▸ hv)
  · intro hv; rw [hHP]; exact h3 (fun hx => hv (hV.trans hx))

theorem startHeartbeat_timers (s : AppState)
    (h : s.liveTimers = s.heartbeatInterval.toList) :
    (startHeartbeat s).liveTimers = (startHeartbeat s).heartbeatInterval.toList := by
  unfold startHeartbeat clearIntervalTimer
  cases hI : s.heartbeatInterval <;> simp_all

theorem startHeartbeat_isSome (s : AppState) :
    (startHeartbeat s).heartbeatInterval.isSome = true := by
  unfold startHeartbeat clearIntervalTimer
  cases s.heartbeatInterval <;> simp

theorem stopHeartbeat_timers (s : AppState)
    (h : s.liveTimers = s.heartbeatInterval.toList) :
    (stopHeartbeat s).liveTimers = [] ∧ (stopHeartbeat s).heartbeatInterval = none := by
  unfold stopHeartbeat clearIntervalTimer
  cases hI : s.heartbeatInterval <;> simp_all

theorem startHeartbeat_frame (s : AppState) :
    (startHeartbeat s).view = s.view ∧ (startHeartbeat s).isHostRef = s.isHostRef
    ∧ (startHeartbeat s).hostPos = s.hostPos
    ∧ (startHeartbeat s).isRemoteOp = s.isRemoteOp
    ∧ (startHeartbeat s).guardClearDelay = s.guardClearDelay
    ∧ (startHeartbeat s).sent = s.sent
    ∧ (startHeartbeat s).dataConn = s.dataConn
    ∧ (startHeartbeat s).clientPos = s.clientPos := by
  unfold startHeartbeat clearIntervalTimer
  cases s.heartbeatInterval <;> simp

theorem stopHeartbeat_frame (s : AppState) :
    (stopHeartbeat s).view = s.view ∧ (stopHeartbeat s).isHostRef = s.isHostRef
    ∧ (stopHeartbeat s).hostPos = s.hostPos
    ∧ (stopHeartbeat s).isRemoteOp = s.isRemoteOp
    ∧ (stopHeartbeat s).guardClearDelay = s.guardClearDelay
    ∧ (stopHeartbeat s).sent = s.sent
    ∧ (stopHeartbeat s).dataConn = s.dataConn
    ∧ (stopHeartbeat s).clientPos = s.clientPos := by
  unfold stopHeartbeat clearIntervalTimer
  cases s.heartbeatInterval <;> simp

theorem heartbeatTick_frame (s : AppState) :
    (heartbeatTick s).view = s.view ∧ (heartbeatTick s).isHostRef = s.isHostRef
    ∧ (heartbeatTick s).hostPos = s.hostPos
    ∧ (heartbeatTick s).liveTimers = s.liveTimers
    ∧ (heartbeatTick s).heartbeatInterval = s.heartbeatInterval := by
  simp only [heartbeatTick]
  (repeat' split) <;> simp_all

theorem handleSyncCommand_frame (s : AppState) (cmd : SyncCommand) :
    (handleSyncCommand s cmd).view = s.view
    ∧ (handleSyncCommand s cmd).isHostRef = s.isHostRef
    ∧ (handleSyncCommand s cmd).liveTimers = s.liveTimers
    ∧ (handleSyncCommand s cmd).heartbeatInterval = s.heartbeatInterval
    ∧ (s.hostPos = none → (handleSyncCommand s cmd).hostPos = none) := by
  simp only [handleSyncCommand]
  (repeat' split) <;> simp_all

theorem onData_frame (s : AppState) (cmd : SyncCommand) :
    (onData s cmd).view = s.view
    ∧ (onData s cmd).isHostRef = s.isHostRef
    ∧ (onData s cmd).liveTimers = s.liveTimers
    ∧ (onData s cmd).heartbeatInterval = s.heartbeatInterval
    ∧ (s.hostPos = none → (onData s cmd).hostPos = none) := by
  unfold onData
  split
  · have h := handleSyncCommand_frame
      { s with log := s.log ++ [LogEntry.received cmd.type] } cmd
    simpa using h
  · exact handleSyncCommand_frame s cmd

theorem handleSyncCommandRaw_frame (s : AppState) (m : RawMsg) :
    (handleSyncCommandRaw s m).view = s.view
    ∧ (handleSyncCommandRaw s m).isHostRef = s.isHostRef
    ∧ (handleSyncCommandRaw s m).liveTimers = s.liveTimers
    ∧ (handleSyncCommandRaw s m).heartbeatInterval = s.heartbeatInterval
    ∧ (s.hostPos = none → (handleSyncCommandRaw s m).hostPos = none) := by
  simp only [handleSyncCommandRaw]
  (repeat' split) <;> simp_all

theorem onDataRaw_frame (s : AppState) (m : RawMsg) :
    (onDataRaw s m).view = s.view
    ∧ (onDataRaw s m).isHostRef = s.isHostRef
    ∧ (onDataRaw s m).liveTimers = s.liveTimers
    ∧ (onDataRaw s m).heartbeatInterval = s.heartbeatInterval
    ∧ (s.hostPos = none → (onDataRaw s m).hostPos = none) := by
  unfold onDataRaw
  split
  · have h := handleSyncCommandRaw_frame
      { s with log := s.log ++ [LogEntry.receivedRaw m.type] } m
    simpa using h
  · exact handleSyncCommandRaw_frame s m

theorem sendCommand_frame (s : AppState) (ty : UserCmdType) (ts : ℚ) :
    (sendCommand s ty ts).view = s.view
    ∧ (sendCommand s ty ts).isHostRef = s.isHostRef
    ∧ (sendCommand s ty ts).hostPos = s.hostPos
    ∧ (sendCommand s ty ts).liveTimers = s.liveTimers
    ∧ (sendCommand s ty ts).heartbeatInterval = s.heartbeatInterval := by
  simp only [sendCommand]
  (repeat' split) <;> simp_all

theorem restartStream_frame (s : AppState) :
    (restartStream s).view = s.view
    ∧ (restartStream s).isHostRef = s.isHostRef
    ∧ (restartStream s).hostPos = s.hostPos
    ∧ (restartStream s).liveTimers = s.liveTimers
    ∧ (restartStream s).heartbeatInterval = s.heartbeatInterval := by
  unfold restartStream
  split <;> simp

theorem startHeartbeat_inv (s : AppState) (h : Inv s) : Inv (startHeartbeat s) := by
  obtain ⟨h1, h2, h3⟩ := h
  have hT := startHeartbeat_timers s h1
  have hF := startHeartbeat_frame s
  refine ⟨hT, fun hv => ?_, fun hv => ?_⟩
  · rw [hF.2.1]; exact h2 (by rw [← hF.1]; exact hv)
  · rw [hF.2.2.1]; exact h3 (fun hx => hv (by rw [hF.1]; exact hx))

theorem stopHeartbeat_inv (s : AppState) (h : Inv s) : Inv (stopHeartbeat s) := by
  obtain ⟨h1, h2, h3⟩ := h
  have hT := stopHeartbeat_timers s h1
  have hF := stopHeartbeat_frame s
  refine ⟨by rw [hT.1, hT.2]; rfl, fun hv => ?_, fun hv => ?_⟩
  · rw [hF.2.1]; exact h2 (by rw [← hF.1]; exact hv)
  · rw [hF.2.2.1]; exact h3 (fun hx => hv (by rw [hF.1]; exact hx))

theorem sendCommand_inv (s : AppState) (ty : UserCmdType) (ts : ℚ) (h : Inv s) :
    Inv (sendCommand s ty ts) := by
  have hf := sendCommand_frame s ty ts
  exact inv_of_fields s _ hf.1 hf.2.1 hf.2.2.1 hf.2.2.2.1 hf.2.2.2.2 h

theorem onConnOpen_inv (s : AppState) (h : Inv s) : Inv (onConnOpen s) := by
  unfold onConnOpen
  split
  · split
    · exact inv_of_fields (startHeartbeat s) _ (by simp) (by simp) (by simp) (by simp)
        (by simp) (startHeartbeat_inv s h)
    · exact startHeartbeat_inv s h
  · exact h

theorem onFileLoaded_inv (s : AppState) (h : Inv s) : Inv (onFileLoaded s) := by
  unfold onFileLoaded
  split
  · split
    · exact startHeartbeat_inv _
        (inv_of_fields s _ (by simp) (by simp) (by simp) (by simp) (by simp) h)
    · exact h
  · exact h

theorem inv_step (s : AppState) (e : Event) (h : Inv s) : Inv (step s e) := by
  obtain ⟨h1, h2, h3⟩ := h
  cases e with
  | clickHostCard =>
      simp only [step]; split
      · refine ⟨by simpa using h1, fun _ => by simp, fun hv => absurd ?_ hv⟩
        simp
      · exact ⟨h1, h2, h3⟩
  | clickClientCard =>
      simp only [step]; split
      · rename_i hL
        refine ⟨by simpa using h1, fun hv => ?_, fun _ => ?_⟩
        · simp at hv
        · have : s.hostPos = none := h3 (by rw [hL]; simp)
          simpa using this
      · exact ⟨h1, h2, h3⟩
  | exitToLanding =>
      simp only [step]; split
      · exact ⟨h1, h2, h3⟩
      · refine ⟨by simpa using h1, fun hv => ?_, fun _ => by simp⟩
        simp at hv
  | peerOpen =>
      exact inv_of_fields s _ (by simp [step]) (by simp [step]) (by simp [step])
        (by simp [step]) (by simp [step]) ⟨h1, h2, h3⟩
  | inboundConnection c =>
      exact inv_of_fields s _ (by simp [step]) (by simp [step]) (by simp [step])
        (by simp [step]) (by simp [step]) ⟨h1, h2, h3⟩
  | connOpen =>
      simp only [step]
      cases hD : s.dataConn with
      | none => exact ⟨h1, h2, h3⟩
      | some c =>
          exact onConnOpen_inv _
            (inv_of_fields s _ (by simp) (by simp) (by simp) (by simp) (by simp)
              ⟨h1, h2, h3⟩)
  | connClose =>
      simp only [step]
      cases hD : s.dataConn with
      | none => exact ⟨h1, h2, h3⟩
      | some c =>
          exact stopHeartbeat_inv _
            (inv_of_fields s _ (by simp) (by simp) (by simp) (by simp) (by simp)
              ⟨h1, h2, h3⟩)
  | connError =>
      simp only [step]
      cases hD : s.dataConn with
      | none => exact ⟨h1, h2, h3⟩
      | some c =>
          exact stopHeartbeat_inv _
            (inv_of_fields s _ (by simp) (by simp) (by simp) (by simp) (by simp)
              ⟨h1, h2, h3⟩)
  | dataMsg cmd =>
      have hf := onData_frame s cmd
      show Inv (onData s cmd)
      refine ⟨?_, fun hv => ?_, fun hv => ?_⟩
      · rw [hf.2.2.1, hf.2.2.2.1]; exact h1
      · rw [hf.2.1]; exact h2 (by rw [← hf.1]; exact hv)
      · exact hf.2.2.2.2 (h3 (fun hx => hv (by rw [hf.1]; exact hx)))
  | rawMsg m =>
      have hf := onDataRaw_frame s m
      show Inv (onDataRaw s m)
      refine ⟨?_, fun hv => ?_, fun hv => ?_⟩
      · rw [hf.2.2.1, hf.2.2.2.1]; exact h1
      · rw [hf.2.1]; exact h2 (by rw [← hf.1]; exact hv)
      · exact hf.2.2.2.2 (h3 (fun hx => hv (by rw [hf.1]; exact hx)))
  | tick id =>
      by_cases hm : id ∈ s.liveTimers
      · have hstep : step s (.tick id) = heartbeatTick s := by simp [step, hm]
        have hf := heartbeatTick_frame s
        rw [hstep]
        exact inv_of_fields s _ hf.1 hf.2.1 hf.2.2.1 hf.2.2.2.1 hf.2.2.2.2 ⟨h1, h2, h3⟩
      · have hstep : step s (.tick id) = s := by simp [step, hm]
        rw [hstep]; exact ⟨h1, h2, h3⟩
  | guardTimeout =>
      simp only [step]
      cases s.guardClearDelay with
      | none => exact ⟨h1, h2, h3⟩
      | some d =>
          exact inv_of_fields s _ (by simp) (by simp) (by simp) (by simp) (by simp)
            ⟨h1, h2, h3⟩
  | fileLoad =>
      simp only [step]; split
      · rename_i hV
        refine onFileLoaded_inv _ ⟨by simpa using h1, fun _ => by simp, fun hv => absurd ?_ hv⟩
        simpa using hV
      · exact ⟨h1, h2, h3⟩
  | userPlay t =>
      simp only [step]; split
      · exact sendCommand_inv _ _ _
          (inv_of_fields s _ (by simp) (by simp) (by simp) (by simp) (by simp)
            ⟨h1, h2, h3⟩)
      · exact ⟨h1, h2, h3⟩
  | userPause t =>
      simp only [step]; split
      · exact sendCommand_inv _ _ _
          (inv_of_fields s _ (by simp) (by simp) (by simp) (by simp) (by simp)
            ⟨h1, h2, h3⟩)
      · exact ⟨h1, h2, h3⟩
  | userSeek t =>
      simp only [step]; split
      · rename_i hP
        have hV : s.view = View.HOST := by
          by_contra hx
          simp [h3 hx] at hP
        refine sendCommand_inv _ _ _ ⟨by simpa using h1, fun _ => by simpa using h2 hV,
          fun hv => absurd ?_ hv⟩
        simpa using hV
      · exact ⟨h1, h2, h3⟩
  | clientPlayBtn => exact sendCommand_inv s _ _ ⟨h1, h2, h3⟩
  | clientPauseBtn => exact sendCommand_inv s _ _ ⟨h1, h2, h3⟩
  | clickRestart =>
      have hf := restartStream_frame s
      exact inv_of_fields s _ hf.1 hf.2.1 hf.2.2.1 hf.2.2.2.1 hf.2.2.2.2 ⟨h1, h2, h3⟩

theorem inv_run (s : AppState) (es : List Event) (h : Inv s) : Inv (run s es) := by
  induction es generalizing s with
  | nil => exact h
  | cons e es ih => exact ih (step s e) (inv_step s e h)

theorem reachable_inv (s : AppState) (h : Reachable s) : Inv s := by
  obtain ⟨es, rfl⟩ := h
  exact inv_run initState es inv_initState

/-- A Host mid-session: HOST view, role Host, local video at position 3,
peer initialized, open data connection. -/
def cHostState : AppState :=
  { initState with view := .HOST, isHostRef := true, hostPos := some 3,
                   peerReady := true, dataConn := some ⟨"peer-a", true⟩ }

/-- A Client mid-session: CLIENT view, role Client, stream sink at position 8,
peer initialized, open data connection. -/
def cClientState : AppState :=
  { initState with view := .CLIENT, isHostRef := false, clientPos := some 8,
                   peerReady := true, dataConn := some ⟨"host-a", true⟩ }

/-- Single invocation of `restartStream` leaves everything but the log and the
outbound-media-call count unchanged. -/
theorem restartStream_state (s : AppState) :
    (restartStream s).heartbeatInterval = s.heartbeatInterval
    ∧ (restartStream s).liveTimers = s.liveTimers
    ∧ (restartStream s).heartbeatPeriodMs = s.heartbeatPeriodMs
    ∧ (restartStream s).isRemoteOp = s.isRemoteOp
    ∧ (restartStream s).guardClearDelay = s.guardClearDelay
    ∧ (restartStream s).hostPos = s.hostPos
    ∧ (restartStream s).clientPos = s.clientPos
    ∧ (restartStream s).dataConn = s.dataConn
    ∧ (restartStream s).sent = s.sent := by
  unfold restartStream
  split <;> simp

/-- C10: for every SEEK received while role is Host (host video element
present), the host position is set to the command timestamp exactly when the
absolute difference exceeds 0.5 s, and is left unchanged otherwise. -/
theorem c10_host_seek_tolerance (s : AppState) (cur ts : ℚ)
    (hH : s.isHostRef = true) (hP : s.hostPos = some cur) :
    (handleSyncCommand s ⟨.SEEK, ts⟩).hostPos =
      if |cur - ts| > 1/2 then some ts else some cur := by
  simp only [handleSyncCommand, hH, hP]
  (repeat' split) <;> simp_all

/-- C10 witness: Host at position 3 receiving SEEK 10 (difference 7 > 0.5)
moves to 10; Host at position 3 receiving SEEK 3.2 (difference 0.2 ≤ 0.5)
stays at 3. -/
theorem c10_host_seek_tolerance_witness :
    (handleSyncCommand cHostState ⟨.SEEK, 10⟩).hostPos
        = (if |(3 : ℚ) - 10| > 1/2 then some 10 else some 3)
    ∧ (handleSyncCommand cHostState ⟨.SEEK, 16/5⟩).hostPos
        = (if |(3 : ℚ) - 16/5| > 1/2 then some (16/5) else some 3) :=
  ⟨c10_host_seek_tolerance cHostState 3 10 rfl rfl,
   c10_host_seek_tolerance cHostState 3 (16/5) rfl rfl⟩

/-- C8: every non-HEARTBEAT command received while role is Client produces no
position change on either player. -/
theorem c8_client_non_heartbeat_keeps_position (s : AppState) (cmd : SyncCommand)
    (hC : s.isHostRef = false) (hT : cmd.type ≠ .HEARTBEAT) :
    (onData s cmd).clientPos = s.clientPos ∧ (onData s cmd).hostPos = s.hostPos := by
  cases hP : s.clientPos <;>
    simp [onData, handleSyncCommand, hC, hT, hP]

/-- C8 witness: a Client at position 8 receiving PLAY keeps both positions. -/
theorem c8_client_non_heartbeat_keeps_position_witness :
    (onData cClientState ⟨.PLAY, 5⟩).clientPos = cClientState.clientPos
    ∧ (onData cClientState ⟨.PLAY, 5⟩).hostPos = cClientState.hostPos :=
  c8_client_non_heartbeat_keeps_position cClientState ⟨.PLAY, 5⟩ rfl (by decide)

/-- C9: the media repair operation is safe to invoke any number of times — no
matter how often it runs, the heartbeat timer state, the loop-guard state, the
players' positions, the tracked connection and the sent commands are exactly
as before. -/
theorem c9_restartStream_repeat_safe (n : ℕ) (s : AppState) :
    (restartStream^[n] s).heartbeatInterval = s.heartbeatInterval
    ∧ (restartStream^[n] s).liveTimers = s.liveTimers
    ∧ (restartStream^[n] s).heartbeatPeriodMs = s.heartbeatPeriodMs
    ∧ (restartStream^[n] s).isRemoteOp = s.isRemoteOp
    ∧ (restartStream^[n] s).guardClearDelay = s.guardClearDelay
    ∧ (restartStream^[n] s).hostPos = s.hostPos
    ∧ (restartStream^[n] s).clientPos = s.clientPos
    ∧ (restartStream^[n] s).dataConn = s.dataConn
    ∧ (restartStream^[n] s).sent = s.sent := by
  induction n generalizing s with
  | zero => simp
  | succ n ih =>
      rw [Function.iterate_succ_apply]
      have hi := ih (restartStream s)
      have h0 := restartStream_state s
      exact ⟨hi.1.trans h0.1, hi.2.1.trans h0.2.1, hi.2.2.1.trans h0.2.2.1,
        hi.2.2.2.1.trans h0.2.2.2.1, hi.2.2.2.2.1.trans h0.2.2.2.2.1,
        hi.2.2.2.2.2.1.trans h0.2.2.2.2.2.1, hi.2.2.2.2.2.2.1.trans h0.2.2.2.2.2.2.1,
        hi.2.2.2.2.2.2.2.1.trans h0.2.2.2.2.2.2.2.1,
        hi.2.2.2.2.2.2.2.2.trans h0.2.2.2.2.2.2.2.2⟩

/-- C7: the component tracks at most one control connection (a single ref);
a second inbound connection arriving while one is open is accepted and simply
replaces the stored one — last writer wins. -/
theorem c7_inbound_last_writer_wins (s : AppState) (c1 c2 : DataConn)
    (_h1 : s.dataConn = some c1) (_h2 : c1.opn = true) :
    (step s (.inboundConnection c2)).dataConn = some c2 := by
  simp [step]

/-- C7 witness: a Host with an open connection to peer-a receiving an inbound
connection from peer-b now tracks peer-b. -/
theorem c7_inbound_last_writer_wins_witness :
    (step cHostState (.inboundConnection ⟨"peer-b", false⟩)).dataConn
      = some ⟨"peer-b", false⟩ :=
  c7_inbound_last_writer_wins cHostState ⟨"peer-a", true⟩ ⟨"peer-b", false⟩ rfl rfl

/-- C2: `sendCommand` sends exactly when a connection exists, is open and the
loop-guard flag is inactive; otherwise it leaves `sent` unchanged and logs
exactly one diagnosable reason (no connection / connection closed / currently
suppressed); the guard set by a suppressed apply is scheduled to clear after
the fixed 300 ms window, and the timeout event deactivates it. -/
theorem c2_trySend_loop_guard (s : AppState) (ty : UserCmdType) (ts : ℚ) :
    ((sendCommand s ty ts).sent = s.sent ++ [⟨ty.toCmdType, ts⟩] ↔
       (∃ c, s.dataConn = some c ∧ c.opn = true) ∧ s.isRemoteOp = false)
    ∧ ((∃ c, s.dataConn = some c ∧ c.opn = true) ∧ s.isRemoteOp = false →
        sendCommand s ty ts =
          { s with log := s.log ++ [LogEntry.sending ty],
                   sent := s.sent ++ [⟨ty.toCmdType, ts⟩] })
    ∧ (s.dataConn = none →
        sendCommand s ty ts = { s with log := s.log ++ [LogEntry.sendFailNoConn] })
    ∧ (∀ c, s.dataConn = some c → c.opn = false →
        sendCommand s ty ts = { s with log := s.log ++ [LogEntry.sendFailConnClosed] })
    ∧ (∀ c, s.dataConn = some c → c.opn = true → s.isRemoteOp = true →
        sendCommand s ty ts = { s with log := s.log ++ [LogEntry.sendSkipRemoteOp] })
    ∧ (∀ cmd : SyncCommand, ∀ cur : ℚ,
        s.isHostRef = true → s.hostPos = some cur → cmd.type ≠ .HEARTBEAT →
        (handleSyncCommand s cmd).isRemoteOp = true
        ∧ (handleSyncCommand s cmd).guardClearDelay = some remoteOpWindowMs)
    ∧ remoteOpWindowMs = 300
    ∧ (∀ s2 : AppState, s2.guardClearDelay.isSome = true →
        (step s2 .guardTimeout).isRemoteOp = false
        ∧ (step s2 .guardTimeout).guardClearDelay = none) := by
  refine ⟨?_, ?_, ?_, ?_, ?_, ?_, rfl, ?_⟩
  · cases hD : s.dataConn with
    | none => simp [sendCommand, hD]
    | some c =>
        cases hO : c.opn <;> cases hR : s.isRemoteOp <;>
          simp [sendCommand, hD, hO, hR]
  · rintro ⟨⟨c, hD, hO⟩, hR⟩
    simp [sendCommand, hD, hO, hR]
  · intro hD
    simp [sendCommand, hD]
  · intro c hD hO
    simp [sendCommand, hD, hO]
  · intro c hD hO hR
    simp [sendCommand, hD, hO, hR]
  · intro cmd cur hH hP hT
    cases hc : cmd.type <;> simp_all [handleSyncCommand] <;> try (split <;> simp_all)
  · intro s2 hg
    cases hg2 : s2.guardClearDelay with
    | none => simp [hg2] at hg
    | some d => simp [step, hg2]

/-- C2 witness: with an open connection and guard inactive the send happens;
with the guard active it is skipped with the suppressed-reason diagnostic; a
host applying a remote PLAY arms the 300 ms guard, and the timeout clears it. -/
theorem c2_trySend_loop_guard_witness :
    (sendCommand cHostState .PLAY 4 =
      { cHostState with log := cHostState.log ++ [LogEntry.sending UserCmdType.PLAY],
                        sent := cHostState.sent ++ [⟨CmdType.PLAY, 4⟩] })
    ∧ (sendCommand { cHostState with isRemoteOp := true } .PLAY 4 =
        { cHostState with isRemoteOp := true,
                          log := cHostState.log ++ [LogEntry.sendSkipRemoteOp] })
    ∧ ((handleSyncCommand cHostState ⟨.PLAY, 4⟩).isRemoteOp = true
        ∧ (handleSyncCommand cHostState ⟨.PLAY, 4⟩).guardClearDelay
            = some remoteOpWindowMs) :=
  ⟨(c2_trySend_loop_guard cHostState .PLAY 4).2.1 ⟨⟨⟨"peer-a", true⟩, rfl, rfl⟩, rfl⟩,
   (c2_trySend_loop_guard { cHostState with isRemoteOp := true } .PLAY 4).2.2.2.2.1
     ⟨"peer-a", true⟩ rfl rfl rfl,
   (c2_trySend_loop_guard cHostState .PLAY 4).2.2.2.2.2.1 ⟨.PLAY, 4⟩ 3 rfl rfl
     (by decide)⟩

/-- C1 counterexample: drift exactly 0.5 s lies in the claim's diagnostic band
(0.5 ≤ d ≤ 1.0), yet the code — which tests the strict `drift > 0.5` — logs
nothing and mutates nothing: a Client at position 8 receiving HEARTBEAT 8.5 is
left exactly as it was, log included. -/
theorem c1_drift_boundary_counterexample :
    (1/2 : ℚ) ≤ |(8 : ℚ) - 17/2| ∧ |(8 : ℚ) - 17/2| ≤ 1
    ∧ onData cClientState ⟨.HEARTBEAT, 17/2⟩ = cClientState := by
  have habs : |(8 : ℚ) - 17/2| = 1/2 := by
    rw [show (8 : ℚ) - 17/2 = -(1/2) by norm_num, abs_neg,
      abs_of_nonneg (by norm_num : (0 : ℚ) ≤ 1/2)]
  refine ⟨by rw [habs], by rw [habs]; norm_num, ?_⟩
  have hC : cClientState.isHostRef = false := rfl
  have hP : cClientState.clientPos = some 8 := rfl
  have hA : ¬((1 : ℚ)/2 < |(8 : ℚ) - 17/2|) := by rw [habs]; norm_num
  have hB : ¬((1 : ℚ) < |(8 : ℚ) - 17/2|) := by rw [habs]; norm_num
  simp only [onData, handleSyncCommand, hC, hP]
  repeat' first
    | rfl
    | split
    | (exfalso; simp_all; linarith)
    | simp_all

/-- C1 (amended): for every HEARTBEAT received while role is Client (sink
element present), with drift d = |local - remote|: if d ≤ 0.5 the state is
completely unchanged (no mutation, nothing logged); if 0.5 < d ≤ 1.0 exactly
the drift diagnostic is appended and no position is mutated; if d > 1.0 the
client position is set to the remote timestamp exactly once. -/
theorem c1_drift_correction (s : AppState) (cur ts : ℚ)
    (hC : s.isHostRef = false) (hP : s.clientPos = some cur) :
    (|cur - ts| ≤ 1/2 → onData s ⟨.HEARTBEAT, ts⟩ = s)
    ∧ (1/2 < |cur - ts| → |cur - ts| ≤ 1 →
        onData s ⟨.HEARTBEAT, ts⟩ =
          { s with log := s.log ++ [LogEntry.driftDiag |cur - ts|] })
    ∧ (1 < |cur - ts| →
        onData s ⟨.HEARTBEAT, ts⟩ =
          { s with clientPos := some ts,
                   log := s.log ++ [LogEntry.driftDiag |cur - ts|,
                                    LogEntry.syncing |cur - ts|] }) := by
  refine ⟨fun h1 => ?_, fun h1 h2 => ?_, fun h1 => ?_⟩ <;>
    simp only [onData, handleSyncCommand, hC, hP] <;>
    (repeat' first
      | rfl
      | split
      | (exfalso; simp_all; linarith)
      | simp_all)

/-- C1 witness (the spec's end-to-end cases): Client at 8.0 receiving
HEARTBEAT 10.0 (d = 2.0 > 1.0) moves to 10.0 with both logs; Client at 9.7
receiving HEARTBEAT 10.0 (d = 0.3) is untouched. -/
theorem c1_drift_correction_witness :
    onData cClientState ⟨.HEARTBEAT, 10⟩ =
      { cClientState with clientPos := some 10,
                          log := cClientState.log ++
                            [LogEntry.driftDiag |(8 : ℚ) - 10|,
                             LogEntry.syncing |(8 : ℚ) - 10|] }
    ∧ onData { cClientState with clientPos := some (97/10) } ⟨.HEARTBEAT, 10⟩ =
        { cClientState with clientPos := some (97/10) } :=
  ⟨(c1_drift_correction cClientState 8 10 rfl rfl).2.2
     (by rw [show (8 : ℚ) - 10 = -2 by norm_num, abs_neg,
          abs_of_nonneg (by norm_num : (0 : ℚ) ≤ 2)]; norm_num),
   (c1_drift_correction { cClientState with clientPos := some (97/10) }
      (97/10) 10 rfl rfl).1
     (by rw [show (97/10 : ℚ) - 10 = -(3/10) by norm_num, abs_neg,
          abs_of_nonneg (by norm_num : (0 : ℚ) ≤ 3/10)]; norm_num)⟩

/-- The malformed inbound message of the spec's decode test:
`{ type: "SEEK", timestamp: "abc" }`. -/
def badSeekMsg : RawMsg := ⟨some "SEEK", .strNonNumeric "abc"⟩

/-- C3: the source performs no decode validation at all. The malformed SEEK is
forwarded straight into the command handler — observable on the Host path
because the loop guard gets armed and the exec entry logged — and no decode
error is ever reported; no position changes, but only because every comparison
against the coerced NaN is false. -/
theorem c3_no_decode_validation :
    (onDataRaw cHostState badSeekMsg).hostPos = cHostState.hostPos
    ∧ (onDataRaw cHostState badSeekMsg).clientPos = cHostState.clientPos
    ∧ (onDataRaw cHostState badSeekMsg).isRemoteOp = true
    ∧ (onDataRaw cHostState badSeekMsg).log =
        cHostState.log ++ [LogEntry.receivedRaw (some "SEEK"),
                           LogEntry.execRaw (some "SEEK")]
    ∧ LogEntry.decodeError ∉ (onDataRaw cHostState badSeekMsg).log
    ∧ (onDataRaw cClientState badSeekMsg).clientPos = cClientState.clientPos
    ∧ LogEntry.decodeError ∉ (onDataRaw cClientState badSeekMsg).log := by
  refine ⟨?_, ?_, ?_, ?_, ?_, ?_, ?_⟩ <;> decide

/-- C5: while the heartbeat timer is live, a tick emits exactly one HEARTBEAT
carrying the Host's current position when the control channel is open, and is
a complete no-op — nothing queued — when it is closed; the interval period is
the fixed 1000 ms; closing or erroring the control channel stops the timer,
after which every tick event is a no-op. -/
theorem c5_heartbeat_scheduler (s : AppState) (id : ℕ) (c : DataConn)
    (hI : s.heartbeatInterval = some id) (hL : s.liveTimers = [id])
    (hD : s.dataConn = some c) :
    (∀ t : ℚ, s.hostPos = some t → c.opn = true →
        step s (.tick id) = { s with sent := s.sent ++ [⟨.HEARTBEAT, t⟩] })
    ∧ (c.opn = false → step s (.tick id) = s)
    ∧ ((step s .connClose).heartbeatInterval = none
        ∧ (step s .connClose).liveTimers = [])
    ∧ ((step s .connError).heartbeatInterval = none
        ∧ (step s .connError).liveTimers = [])
    ∧ (∀ s2 : AppState, ∀ id2 : ℕ, s2.liveTimers = [] → step s2 (.tick id2) = s2)
    ∧ (startHeartbeat s).heartbeatPeriodMs = some heartbeatTickMs
    ∧ heartbeatTickMs = 1000 := by
  refine ⟨?_, ?_, ?_, ?_, ?_, ?_, rfl⟩
  · intro t hP hO
    simp [step, hL, heartbeatTick, hP, hD, hO]
  · intro hO
    cases hP : s.hostPos <;> simp [step, hL, heartbeatTick, hP, hD, hO]
  · have h := stopHeartbeat_timers
      { s with dataConn := some { c with opn := false },
               log := s.log ++ [.connectionClosed] } (by simp [hI, hL])
    exact ⟨by simpa [step, hD] using h.2, by simpa [step, hD] using h.1⟩
  · have h := stopHeartbeat_timers
      { s with log := s.log ++ [.dataConnError] } (by simp [hI, hL])
    exact ⟨by simpa [step, hD] using h.2, by simpa [step, hD] using h.1⟩
  · intro s2 id2 h0
    simp [step, h0]
  · simp [startHeartbeat, clearIntervalTimer, hI]

/-- A Host mid-session with the heartbeat timer live (handle 0). -/
def cHostBeating : AppState :=
  { cHostState with heartbeatInterval := some 0, liveTimers := [0],
                    nextTimerId := 1, heartbeatPeriodMs := some 1000 }

/-- C5 witness: a live timer with an open channel emits HEARTBEAT 3 on a tick,
and closing the channel clears the timer. -/
theorem c5_heartbeat_scheduler_witness :
    step cHostBeating (.tick 0)
        = { cHostBeating with sent := cHostBeating.sent ++ [⟨.HEARTBEAT, 3⟩] }
    ∧ (step cHostBeating .connClose).heartbeatInterval = none :=
  ⟨(c5_heartbeat_scheduler cHostBeating 0 ⟨"peer-a", true⟩ rfl rfl rfl).1 3 rfl rfl,
   (c5_heartbeat_scheduler cHostBeating 0 ⟨"peer-a", true⟩ rfl rfl rfl).2.2.1.1⟩

/-- The role-switch trace: host a party, receive a connection, it opens (the
heartbeat starts), Exit back to the landing view, click the Join card. -/
def roleSwitchTrace : List Event :=
  [.clickHostCard, .inboundConnection ⟨"peer-a", false⟩, .connOpen,
   .exitToLanding, .clickClientCard]

/-- C4 counterexample: after hosting, connection open (heartbeat started),
Exit, and picking the Client role, the role is Client yet the heartbeat
interval timer is still live — the scheduler is running while role is Client,
because `stopHeartbeat` is only wired to connection close/error. -/
theorem c4_scheduler_runs_as_client_counterexample :
    (run initState roleSwitchTrace).isHostRef = false
    ∧ (run initState roleSwitchTrace).heartbeatInterval = some 0
    ∧ (run initState roleSwitchTrace).liveTimers = [0] := by
  decide

theorem startHeartbeat_len (s : AppState)
    (h : s.liveTimers = s.heartbeatInterval.toList) :
    (startHeartbeat s).liveTimers.length = 1 := by
  rw [startHeartbeat_timers s h]
  obtain ⟨n, hn⟩ := Option.isSome_iff_exists.1 (startHeartbeat_isSome s)
  simp [hn]

/-- C4 (amended): the scheduler is never STARTED while role is Client — a
connection opening with role Client leaves the timer state unchanged — and no
HEARTBEAT is ever emitted by a tick while role is Client; however a timer
started as Host survives a later role switch to Client through the landing
view (the counterexample), so "never runs" holds for starting and emission
but not for timer liveness. Starting while Host is idempotent: from any
reachable state, starting once or twice leaves exactly one live timer. -/
theorem c4_scheduler_host_only_and_idempotent (s : AppState) (hR : Reachable s) :
    (s.isHostRef = false →
       (∀ id : ℕ, (step s (.tick id)).sent = s.sent)
       ∧ (step s .connOpen).heartbeatInterval = s.heartbeatInterval
       ∧ (step s .connOpen).liveTimers = s.liveTimers)
    ∧ (startHeartbeat s).liveTimers.length = 1
    ∧ (startHeartbeat (startHeartbeat s)).liveTimers.length = 1 := by
  obtain ⟨h1, h2, h3⟩ := reachable_inv s hR
  refine ⟨fun hC => ⟨?_, ?_, ?_⟩, startHeartbeat_len s h1,
    startHeartbeat_len _ (startHeartbeat_timers s h1)⟩
  · intro id
    have hPos : s.hostPos = none := by
      refine h3 (fun hx => ?_)
      rw [h2 hx] at hC
      simp at hC
    by_cases hm : id ∈ s.liveTimers <;>
      cases hDC : s.dataConn <;>
        simp [step, hm, heartbeatTick, hPos, hDC]
  · cases hDC : s.dataConn <;> simp [step, hDC, onConnOpen, hC]
  · cases hDC : s.dataConn <;> simp [step, hDC, onConnOpen, hC]

/-- C4 witness: in the freshly-chosen-Client state, a tick emits nothing, and
two consecutive starts from the reachable Host-with-open-connection state
leave exactly one live timer. -/
theorem c4_scheduler_witness :
    (step (run initState [Event.clickClientCard]) (.tick 0)).sent
        = (run initState [Event.clickClientCard]).sent
    ∧ (startHeartbeat (startHeartbeat
          (run initState [Event.clickClientCard]))).liveTimers.length = 1 :=
  ⟨((c4_scheduler_host_only_and_idempotent _ ⟨[Event.clickClientCard], rfl⟩).1
      (by decide)).1 0,
   (c4_scheduler_host_only_and_idempotent _ ⟨[Event.clickClientCard], rfl⟩).2.2⟩

/-- C6 counterexample: the role-switch trace reassigns the role from Host to
Client while the connection session is still tracked and open: the
reassignment is neither rejected nor a no-op, and nothing was dismantled. -/
theorem c6_role_reassigned_counterexample :
    (run initState [Event.clickHostCard, .inboundConnection ⟨"peer-a", false⟩,
        .connOpen]).isHostRef = true
    ∧ (run initState roleSwitchTrace).isHostRef = false
    ∧ (run initState roleSwitchTrace).dataConn = some ⟨"peer-a", true⟩ := by
  decide

theorem onConnOpen_isHostRef (s : AppState) :
    (onConnOpen s).isHostRef = s.isHostRef := by
  unfold onConnOpen
  split
  · split
    · simpa using (startHeartbeat_frame s).2.1
    · exact (startHeartbeat_frame s).2.1
  · rfl

theorem onFileLoaded_isHostRef (s : AppState) :
    (onFileLoaded s).isHostRef = s.isHostRef := by
  cases hD : s.dataConn with
  | none => simp [onFileLoaded, hD]
  | some c =>
      simp only [onFileLoaded, hD]
      split
      · rw [(startHeartbeat_frame _).2.1]
      · rfl

/-- C6 (amended): role changes only through the landing-view role cards — any
event handled while the view is HOST or CLIENT leaves the role unchanged; but
the Exit button dismantles nothing, and on the landing view selecting a role
is a plain assignment that succeeds and leaves the tracked connection exactly
in place, even while a session is open — it is neither rejected nor a no-op. -/
theorem c6_role_reassignment (s : AppState) (e : Event) (hR : Reachable s)
    (hV : s.view ≠ .LANDING) :
    (step s e).isHostRef = s.isHostRef
    ∧ (∀ s2 : AppState, s2.view = .LANDING →
        (step s2 .clickClientCard).isHostRef = false
        ∧ (step s2 .clickClientCard).dataConn = s2.dataConn
        ∧ (step s2 .clickHostCard).isHostRef = true
        ∧ (step s2 .clickHostCard).dataConn = s2.dataConn) := by
  obtain ⟨h1, h2, h3⟩ := reachable_inv s hR
  constructor
  · cases e with
    | clickHostCard => simp [step, hV]
    | clickClientCard => simp [step, hV]
    | exitToLanding => simp [step]; split <;> simp
    | peerOpen => simp [step]
    | inboundConnection c => simp [step]
    | connOpen =>
        cases hDC : s.dataConn with
        | none => simp [step, hDC]
        | some c =>
            simp only [step, hDC]
            rw [onConnOpen_isHostRef _]
    | connClose =>
        cases hDC : s.dataConn with
        | none => simp [step, hDC]
        | some c =>
            simp only [step, hDC]
            rw [(stopHeartbeat_frame _).2.1]
    | connError =>
        cases hDC : s.dataConn with
        | none => simp [step, hDC]
        | some c =>
            simp only [step, hDC]
            rw [(stopHeartbeat_frame _).2.1]
    | dataMsg cmd => exact (onData_frame s cmd).2.1
    | rawMsg m => exact (onDataRaw_frame s m).2.1
    | tick id =>
        by_cases hm : id ∈ s.liveTimers <;>
          simp [step, hm, (heartbeatTick_frame s).2.1]
    | guardTimeout =>
        cases hg : s.guardClearDelay <;> simp [step, hg]
    | fileLoad =>
        simp only [step]
        split
        · rename_i hVH
          have := onFileLoaded_isHostRef { s with hostPos := some 0, isHostRef := true }
          rw [this]
          simpa using (h2 hVH).symm
        · rfl
    | userPlay t =>
        simp only [step]
        split
        · simpa using (sendCommand_frame { s with hostPaused := false } .PLAY t).2.1
        · rfl
    | userPause t =>
        simp only [step]
        split
        · simpa using (sendCommand_frame { s with hostPaused := true } .PAUSE t).2.1
        · rfl
    | userSeek t =>
        simp only [step]
        split
        · simpa using (sendCommand_frame { s with hostPos := some t } .SEEK t).2.1
        · rfl
    | clientPlayBtn => exact (sendCommand_frame s .PLAY 0).2.1
    | clientPauseBtn => exact (sendCommand_frame s .PAUSE 0).2.1
    | clickRestart => exact (restartStream_frame s).2.1
  · intro s2 hL2
    simp [step, hL2]

/-- C6 witness: in the reachable HOST-view state, a peer-open event preserves
the role; and from the landing screen the client card is a plain assignment. -/
theorem c6_role_reassignment_witness :
    (step (run initState [Event.clickHostCard]) .peerOpen).isHostRef
        = (run initState [Event.clickHostCard]).isHostRef
    ∧ (step initState .clickClientCard).isHostRef = false :=
  ⟨(c6_role_reassignment _ .peerOpen ⟨[Event.clickHostCard], rfl⟩ (by decide)).1,
   ((c6_role_reassignment _ .peerOpen ⟨[Event.clickHostCard], rfl⟩ (by decide)).2
      initState rfl).1⟩

end P2P
